import Mathlib

/-!
Verification of the connection/request-handling core of a minimal HTTP/1.1
static-file server (src/main.rs).

The embedding mirrors the Rust source:
* `Status`, `from_status`, `HTML_MOVED`, `HTML_ERROR`, `build_http_response`,
  `build_error_response`, `build_response_other`, `is_path_safe`,
  `handle_request`, `parse_host_address` are direct translations of the
  functions of the same names.
* Filesystem effects (`Path::canonicalize`, `Path::is_dir`, `fs::read`,
  `fs::read_to_string`) are abstracted into an `Fs` record of functions;
  paths are represented as lists of path components (a `PathBuf` is its
  component list; an absolute path is its component list below the root).
* Byte strings are `List Nat` (one `Nat < 256` per byte); `strBytes` is the
  UTF-8 encoding, matching Rust's `String::into_bytes` / `as_bytes`.
* The keep-alive loop of `handle_connection` is modelled by `sessionLoop`,
  a function over the sequence of read events arriving on the connection.
-/

namespace HttpServer

abbrev Bytes := List Nat

/-- The `Status` enum of the source (the misspelling `MovedPermamently` is
the source's own). -/
inductive Status where
  | Success
  | MovedPermamently (url : String)
  | BadRequest
  | Forbidden
  | PageNotFound
  | InternalServerError
  | NotImplemented

/-- `from_status`: status to numeric code and reason phrase. -/
def from_status : Status → Nat × String
  | Status.Success => (200, "OK")
  | Status.MovedPermamently _ => (301, "Moved Permamently")
  | Status.BadRequest => (400, "Bad Request")
  | Status.Forbidden => (403, "Forbidden")
  | Status.PageNotFound => (404, "Not Found")
  | Status.InternalServerError => (500, "Internal Server Error")
  | Status.NotImplemented => (501, "Not Implemented")

/-- The `HTML_MOVED!` format template of the source, with its three holes
(title, heading, link target) filled. -/
def HTML_MOVED (title heading href : String) : String :=
  "<!DOCTYPE html>\n<html lang=\"en\">\n<head><meta charset=\"utf-8\"><title>"
    ++ title ++ "</title></head>\n<body>\n<h1>" ++ heading
    ++ "</h1>\n<p>The document has moved <a href=\"" ++ href
    ++ "\">here</a>.</p>\n</body>\n</html>"

/-- The `HTML_ERROR!` format template of the source, with its single hole
(used twice) filled. -/
def HTML_ERROR (t : String) : String :=
  "<!DOCTYPE html>\n<html lang=\"en\">\n<head><meta charset=\"utf-8\"><title>"
    ++ t ++ "</title></head>\n<body>\n<h1>" ++ t ++ "</h1>\n</body>\n</html>"

/-- UTF-8 encoding of one character, as a list of byte values. -/
def utf8Encode (c : Char) : List Nat :=
  let n := c.toNat
  if n < 0x80 then [n]
  else if n < 0x800 then [0xC0 + n / 0x40, 0x80 + n % 0x40]
  else if n < 0x10000 then
    [0xE0 + n / 0x1000, 0x80 + (n / 0x40) % 0x40, 0x80 + n % 0x40]
  else
    [0xF0 + n / 0x40000, 0x80 + (n / 0x1000) % 0x40, 0x80 + (n / 0x40) % 0x40,
      0x80 + n % 0x40]

/-- The UTF-8 bytes of a string (Rust `String::into_bytes` / `as_bytes`). -/
def strBytes (s : String) : Bytes :=
  (s.data.map utf8Encode).flatten

/-- `build_http_response`: status line, headers (`Location` first when the
status is a redirect, then `Content-Type`, then `Content-Length`), blank
line, body.  When the status is `MovedPermamently` and the given body is
empty, the body is replaced by the synthesized `HTML_MOVED` page before
`Content-Length` is computed. -/
def build_http_response (status : Status) (content_type : String)
    (initial_body : Bytes) : Bytes :=
  let code_status := from_status status
  let full_status_line :=
    "HTTP/1.1 " ++ toString code_status.1 ++ " " ++ code_status.2
  let locAndBody : String × Bytes :=
    match status with
    | Status.MovedPermamently url =>
        ("Location: " ++ url ++ "\r\n",
          if initial_body.isEmpty then
            strBytes (HTML_MOVED code_status.2 code_status.2 url)
          else initial_body)
    | _ => ("", initial_body)
  let final_body := locAndBody.2
  let headers := locAndBody.1 ++ "Content-Type: " ++ content_type ++ "\r\n"
    ++ "Content-Length: " ++ toString final_body.length ++ "\r\n"
  strBytes full_status_line ++ strBytes "\r\n" ++ strBytes headers
    ++ strBytes "\r\n" ++ final_body

/-- `build_error_response`: the `HTML_ERROR` page for the status' reason
phrase, passed through `build_http_response`. -/
def build_error_response (status : Status) : Bytes :=
  build_http_response status "text/html; charset=utf-8"
    (strBytes (HTML_ERROR (from_status status).2))

/-- The body that `build_http_response` actually emits for a given status
and caller-supplied body (the spec's "body as sent"). -/
def responseFinalBody (status : Status) (initial_body : Bytes) : Bytes :=
  match status with
  | Status.MovedPermamently url =>
      if initial_body.isEmpty then
        strBytes (HTML_MOVED (from_status (Status.MovedPermamently url)).2
          (from_status (Status.MovedPermamently url)).2 url)
      else initial_body
  | _ => initial_body

/-- ASCII lower-casing of one character (Rust `eq_ignore_ascii_case`
folds exactly the ASCII letters). -/
def asciiLowerChar (c : Char) : Char :=
  if 'A' ≤ c ∧ c ≤ 'Z' then Char.ofNat (c.toNat + 32) else c

/-- ASCII lower-casing of a string. -/
def asciiLower (s : String) : String :=
  ⟨s.data.map asciiLowerChar⟩

/-- Rust `str::eq_ignore_ascii_case`. -/
def eqIgnoreAsciiCase (a b : String) : Bool :=
  asciiLower a == asciiLower b

/-- The extension-to-MIME table of `build_response_other`.  The source
lower-cases with Rust's Unicode `to_lowercase`; every key of the table is
plain ASCII, so ASCII lower-casing selects the same rows. -/
def mimeOf (ext : String) : String :=
  match asciiLower ext with
  | "png" => "image/png"
  | "jpg" => "image/jpeg"
  | "jpeg" => "image/jpeg"
  | "gif" => "image/gif"
  | "svg" => "image/svg+xml"
  | "pdf" => "application/pdf"
  | "json" => "application/json"
  | "xml" => "application/xml"
  | "css" => "text/css"
  | "js" => "application/javascript"
  | "txt" => "text/plain; charset=utf-8"
  | "bin" => "application/octet-stream"
  | _ => "application/octet-stream"

/-- Abstraction of the filesystem calls the core makes.  Paths are
component lists; `canonicalize` returns the absolute component list of the
canonicalized path, or `none` when `Path::canonicalize` errors. -/
structure Fs where
  canonicalize : List String → Option (List String)
  isDir : List String → Bool
  readFile : List String → Option Bytes
  readToString : List String → Option String

/-- `build_response_other`: guess the MIME type from the extension, read
the file as raw bytes; a read error becomes a 500 response (`e_to_cow`). -/
def build_response_other (fs : Fs) (ext : String) (p : List String) : Bytes :=
  let content_type := mimeOf ext
  match fs.readFile p with
  | some file_bytes =>
      build_http_response Status.Success content_type file_bytes
  | none => build_error_response Status.InternalServerError

/-- Splitting a character list at every occurrence of a separator
character; empty pieces are kept, matching Rust `str::split(char)`. -/
def splitCharList (sep : Char) : List Char → List (List Char)
  | [] => [[]]
  | c :: rest =>
      match splitCharList sep rest with
      | [] => [[c]]
      | h :: t => if c == sep then [] :: h :: t else (c :: h) :: t

/-- Rust `str::split(sep)` collected into a list (always non-empty). -/
def splitChar (sep : Char) (s : String) : List String :=
  (splitCharList sep s.data).map (fun l => ⟨l⟩)

/-- Rust `str::starts_with(prefix)`. -/
def startsWithStr (s pre : String) : Bool :=
  pre.data.isPrefixOf s.data

/-- Rust `str::ends_with(suffix)`. -/
def endsWithStr (s suf : String) : Bool :=
  suf.data.isSuffixOf s.data

/-- Dropping the first `n` characters of a string (all uses drop an ASCII
prefix whose presence was just checked, so characters equal bytes). -/
def dropStr (n : Nat) (s : String) : String :=
  ⟨s.data.drop n⟩

/-- Rust `char::is_whitespace`, used by `str::trim`: the code points with
the Unicode `White_Space` property — U+0009..U+000D, U+0020, U+0085,
U+00A0, U+1680, U+2000..U+200A, U+2028, U+2029, U+202F, U+205F and
U+3000. -/
def isWsChar (c : Char) : Bool :=
  let n := c.toNat
  (0x09 ≤ n && n ≤ 0x0D) || n == 0x20 || n == 0x85 || n == 0xA0
    || n == 0x1680 || (0x2000 ≤ n && n ≤ 0x200A)
    || n == 0x2028 || n == 0x2029 || n == 0x202F
    || n == 0x205F || n == 0x3000

/-- Rust `str::trim`: drop whitespace from both ends. -/
def trimStr (s : String) : String :=
  ⟨((s.data.dropWhile isWsChar).reverse.dropWhile isWsChar).reverse⟩

/-- Rust `str::is_empty`. -/
def isEmptyStr (s : String) : Bool :=
  s.data.isEmpty

/-- Rust `str::trim_start_matches('/')`: drop every leading slash. -/
def trimSlashes (s : String) : String :=
  ⟨s.data.dropWhile (fun c => c == '/')⟩

/-- The component list of a relative path string, as produced by Rust's
`Path::components` after a leading-slash trim: split on `/`, empty pieces
disappear, `.` components are no-ops of the walk (Rust normalizes interior
`.` away and the walk's `CurDir` arm does nothing), `..` is kept as a
literal component.  `RootDir`/`Prefix` components cannot occur in a
slash-trimmed string on Unix. -/
def pathComponents (s : String) : List String :=
  (splitChar '/' s).filter (fun t => t != "" && t != ".")

/-- The component walk of `is_path_safe`: a normal component is pushed, a
`..` pops the last component (`PathBuf::pop`), and popping an absolute
path that is already at the filesystem root (empty component list) fails,
which the source turns into an immediate rejection (`none`). -/
def walkComponents : List String → List String → Option (List String)
  | acc, [] => some acc
  | acc, c :: rest =>
      if c == ".." then
        if acc.isEmpty then none
        else walkComponents acc.dropLast rest
      else walkComponents (acc ++ [c]) rest

/-- `is_path_safe`: canonicalize the base (failure rejects), walk the
slash-trimmed resource's components from the canonical base, and finally
check that the accumulated path still starts with the canonical base. -/
def is_path_safe (fs : Fs) (base_dir : List String)
    (requested_resource : String) : Bool :=
  match fs.canonicalize base_dir with
  | none => false
  | some canonical_base_dir =>
      match walkComponents canonical_base_dir
          (pathComponents (trimSlashes requested_resource)) with
      | none => false
      | some actual_target_path =>
          canonical_base_dir.isPrefixOf actual_target_path

/-- `PathBuf::push` of a relative path string: append its components. -/
def pushPath (p : List String) (s : String) : List String :=
  p ++ pathComponents s

/-- Rust `Path::extension` on a file name: the portion after the final
`.`, unless there is no `.` or the name begins with `.` and has no other
`.` inside. -/
def rustExtension (name : String) : Option String :=
  match splitChar '.' name with
  | [] => none
  | [_] => none
  | ["", _] => none
  | parts => parts.getLast?

/-- Rust `Path::extension` on a path: the extension of its last component
(a path ending in `..` has no file name, hence no extension). -/
def pathExtension (p : List String) : Option String :=
  match p.getLast? with
  | none => none
  | some name => if name == ".." then none else rustExtension name

/-- The first piece of a split, with the unsplit string as the (never
needed) fallback: `split(sep).next()` and `split_once(sep)`'s first half
both reduce to this. -/
def firstPiece (sep : Char) (x : String) : String :=
  (splitChar sep x).headD x

/-- `handle_request`: reject unsafe resources with 403; a directory turns
into a 301 redirect (original resource, trailing `/` ensured,
`index.html` appended to the caller's URL base) with an empty body handed
to the builder; otherwise dispatch on the extension (`html` is read as
text, any other extension as raw bytes, no extension is a 404 without any
read). -/
def handle_request (fs : Fs) (p : List String) (resource : String)
    (url : String) : Bytes :=
  let resource_stripped := trimSlashes resource
  if !(is_path_safe fs p resource_stripped) then
    build_error_response Status.Forbidden
  else
    let p2 := pushPath p resource_stripped
    if fs.isDir p2 then
      let resource_formatted :=
        if endsWithStr resource "/" then resource else resource ++ "/"
      build_http_response
        (Status.MovedPermamently (url ++ resource_formatted ++ "index.html"))
        "text/html; charset=utf-8" []
    else
      match pathExtension p2 with
      | some ext =>
          if ext == "html" then
            match fs.readToString p2 with
            | some file_content =>
                build_http_response Status.Success "text/html; charset=utf-8"
                  (strBytes file_content)
            | none => build_error_response Status.InternalServerError
          else build_response_other fs ext p2
      | none => build_error_response Status.PageNotFound

/-- `parse_host_address`: strip the exact prefix `"Host: "` (case
sensitive — `str::strip_prefix` is exact), optionally strip `"http://"`,
truncate at the first `/`, then truncate at the first `:`. -/
def parse_host_address (host_str : String) : Option String :=
  if startsWithStr host_str "Host: " then
    let x0 := dropStr 6 host_str
    let x1 := if startsWithStr x0 "http://" then dropStr 7 x0 else x0
    let x2 := firstPiece '/' x1
    some (firstPiece ':' x2)
  else none

/-- The host-name extraction applied to the text after `"Host: "`. -/
def hostFrom (x0 : String) : String :=
  let x1 := if startsWithStr x0 "http://" then dropStr 7 x0 else x0
  let x2 := firstPiece '/' x1
  firstPiece ':' x2

def KEEP_ALIVE_TIMEOUT_MS : Nat := 1000

def MAX_REQUESTS_PER_CONNECTION : Nat := 100

/-- The `client_wants_close` scan of the header list. -/
def client_wants_close (headers : List String) : Bool :=
  headers.any (fun h => eqIgnoreAsciiCase h "Connection: close")

/-- The `GET` arm of `handle_connection`'s dispatch: find the first header
that `parse_host_address` accepts; with virtual hosting enabled (the
`HOST_NOT_DEFINED` environment variable is not `"1"`, here
`host_not_defined = false`) push the host name onto the document root
before calling `handle_request`; without a usable host answer 400. -/
def getBranch (fs : Fs) (resource_dir : List String) (port : Nat)
    (host_not_defined : Bool) (resource : String)
    (headers : List String) : Bytes :=
  match headers.findSome? parse_host_address with
  | some domain_name =>
      let p := if host_not_defined then resource_dir
        else pushPath resource_dir domain_name
      handle_request fs p resource ("http://" ++ domain_name ++ ":" ++ toString port)
  | none => build_error_response Status.BadRequest

/-- The `match` on the split request line in `handle_connection`:
`["GET", resource, "HTTP/1.1"]` dispatches, anything else is 501. -/
def dispatchTokens (fs : Fs) (resource_dir : List String) (port : Nat)
    (host_not_defined : Bool) (tokens : List String)
    (headers : List String) : Bytes :=
  match tokens with
  | ["GET", resource, "HTTP/1.1"] =>
      getBranch fs resource_dir port host_not_defined resource headers
  | _ => build_error_response Status.NotImplemented

/-- Whether a token list has the accepted `GET <resource> HTTP/1.1` shape. -/
def matchesGetShape : List String → Bool
  | ["GET", _, "HTTP/1.1"] => true
  | _ => false

/-- The response `handle_connection` computes for one non-empty request
line: trim it, split on single spaces, dispatch. -/
def iterationResponse (fs : Fs) (resource_dir : List String) (port : Nat)
    (host_not_defined : Bool) (request_line : String)
    (headers : List String) : Bytes :=
  dispatchTokens fs resource_dir port host_not_defined
    (splitChar ' ' (trimStr request_line)) headers

/-- One read event on the connection: what the request-line read of an
iteration of `handle_connection`'s loop encounters.  `line` carries the
request line as read, the trimmed non-empty header lines that follow it,
and whether the header-reading loop hit a read error (which the source
treats as fatal: shutdown, no response). -/
inductive ReadEvent where
  | eof
  | timeoutErr
  | readErr
  | line (request_line : String) (headers : List String) (headerReadErr : Bool)

/-- Result of a session: the responses written, in order, and how many
read events the loop consumed before closing. -/
structure SessionResult where
  responses : List Bytes
  consumed : Nat
deriving DecidableEq

/-- The keep-alive loop of `handle_connection`.  Per iteration: stop
before reading anything if `requests_served` has reached
`MAX_REQUESTS_PER_CONNECTION`; otherwise consume one read event — EOF,
timeout and read errors close the connection, a whitespace-only request
line closes it without a response, a header read error closes it without
a response, and otherwise the response for the line is written,
`requests_served` is incremented, and the loop continues unless the
request carried `Connection: close`.  On every exit path the source shuts
the stream down. -/
def sessionLoop (fs : Fs) (resource_dir : List String) (port : Nat)
    (host_not_defined : Bool) : Nat → List ReadEvent → SessionResult
  | _, [] => ⟨[], 0⟩
  | requests_served, e :: rest =>
      if MAX_REQUESTS_PER_CONNECTION ≤ requests_served then ⟨[], 0⟩
      else
        match e with
        | ReadEvent.eof => ⟨[], 1⟩
        | ReadEvent.timeoutErr => ⟨[], 1⟩
        | ReadEvent.readErr => ⟨[], 1⟩
        | ReadEvent.line l hs herr =>
            if isEmptyStr (trimStr l) then ⟨[], 1⟩
            else if herr then ⟨[], 1⟩
            else
              let resp := iterationResponse fs resource_dir port
                host_not_defined l hs
              if client_wants_close hs then ⟨[resp], 1⟩
              else
                let r := sessionLoop fs resource_dir port host_not_defined
                  (requests_served + 1) rest
                ⟨resp :: r.responses, r.consumed + 1⟩

/-- A tiny concrete filesystem used to instantiate the theorems: the
document root `/srv` and a virtual-host directory `/srv/example.com`
exist, no file is readable. -/
def fsExample : Fs where
  canonicalize := fun p =>
    if p == ["srv"] then some ["srv"]
    else if p == ["srv", "example.com"] then some ["srv", "example.com"]
    else none
  isDir := fun p => p == ["srv", "example.com"]
  readFile := fun _ => none
  readToString := fun _ => none

/-- A concrete filesystem whose document root canonicalizes to `/a/b`. -/
def fsAB : Fs where
  canonicalize := fun p => if p == ["a", "b"] then some ["a", "b"] else none
  isDir := fun _ => false
  readFile := fun _ => none
  readToString := fun _ => none

/-- Whether the outcome of the component walk lies outside the base:
either the walk failed (it popped past the filesystem root) or the final
accumulated path does not start with the base. -/
def escapesBase (base : List String) : Option (List String) → Bool
  | none => true
  | some acc => !(base.isPrefixOf acc)

theorem trimSlashes_idem (s : String) :
    trimSlashes (trimSlashes s) = trimSlashes s := by
  unfold trimSlashes
  exact congrArg String.mk (List.dropWhile_idempotent _ _)

/-- C3: every response built by `build_http_response` (and hence also
every `build_error_response`) consists of the status line, a header block
ending in a `Content-Length` whose value is the length in bytes of the
body actually sent (`responseFinalBody`, i.e. computed after any body
synthesis), a blank line and that body; for a redirect given an empty
body, the body sent is the synthesized `HTML_MOVED` page; an error
response is the builder applied to the synthesized `HTML_ERROR` page. -/
theorem c3_content_length (status : Status) (content_type : String)
    (initial_body : Bytes) :
    (∃ pre : String,
      build_http_response status content_type initial_body =
        strBytes ("HTTP/1.1 " ++ toString (from_status status).1 ++ " "
            ++ (from_status status).2)
          ++ strBytes "\r\n"
          ++ strBytes (pre ++ "Content-Type: " ++ content_type ++ "\r\n"
            ++ "Content-Length: "
            ++ toString (responseFinalBody status initial_body).length ++ "\r\n")
          ++ strBytes "\r\n"
          ++ responseFinalBody status initial_body)
    ∧ (∀ url, responseFinalBody (Status.MovedPermamently url) [] =
        strBytes (HTML_MOVED "Moved Permamently" "Moved Permamently" url))
    ∧ (∀ s, build_error_response s =
        build_http_response s "text/html; charset=utf-8"
          (strBytes (HTML_ERROR (from_status s).2))) := by
  refine ⟨?_, fun url => rfl, fun s => rfl⟩
  cases status <;> exact ⟨_, rfl⟩

/-- C6: once the request counter has reached
`MAX_REQUESTS_PER_CONNECTION` (= 100), the session loop stops at once: no
further read event is consumed, no response is written, whatever input is
still pending. -/
theorem c6_max_requests (fs : Fs) (resource_dir : List String) (port : Nat)
    (host_not_defined : Bool) (requests_served : Nat)
    (events : List ReadEvent)
    (h : MAX_REQUESTS_PER_CONNECTION ≤ requests_served) :
    sessionLoop fs resource_dir port host_not_defined requests_served events
      = ⟨[], 0⟩ := by
  cases events with
  | nil => rfl
  | cons e rest => simp [sessionLoop, h]

/-- Witness for C6 at the concrete bound 100 with a pending request. -/
theorem c6_max_requests_witness :
    MAX_REQUESTS_PER_CONNECTION ≤ 100 ∧
    sessionLoop fsExample ["srv"] 80 false 100
      [ReadEvent.line "GET / HTTP/1.1" [] false] = ⟨[], 0⟩ :=
  ⟨by decide, c6_max_requests fsExample ["srv"] 80 false 100 _ (by decide)⟩

/-- C10: a request line that reads successfully but is whitespace-only
ends the session: the loop consumes that one read, writes no response for
it, and does not touch the rest of the input (the connection is then shut
down after the loop, as on every exit path). -/
theorem c10_blank_line (fs : Fs) (resource_dir : List String) (port : Nat)
    (host_not_defined : Bool) (requests_served : Nat) (l : String)
    (hs : List String) (herr : Bool) (rest : List ReadEvent)
    (hserved : requests_served < MAX_REQUESTS_PER_CONNECTION)
    (hblank : isEmptyStr (trimStr l) = true) :
    sessionLoop fs resource_dir port host_not_defined requests_served
      (ReadEvent.line l hs herr :: rest) = ⟨[], 1⟩ := by
  have hlt : ¬ MAX_REQUESTS_PER_CONNECTION ≤ requests_served :=
    Nat.not_le.mpr hserved
  simp [sessionLoop, hlt, hblank]

/-- Witness for C10: a bare CRLF line with pending further input. -/
theorem c10_blank_line_witness :
    (0 : Nat) < MAX_REQUESTS_PER_CONNECTION ∧
    sessionLoop fsExample ["srv"] 80 false 0
      [ReadEvent.line "\r\n" ["Host: example.com"] false,
        ReadEvent.line "GET / HTTP/1.1" [] false] = ⟨[], 1⟩ :=
  ⟨by decide, c10_blank_line fsExample ["srv"] 80 false 0 "\r\n"
    ["Host: example.com"] false _ (by decide) (by decide)⟩

/-- C2, counterexample: with canonical base `/a/b`, the resource `../b/c`
is accepted by `is_path_safe`, yet immediately after its `..` component
the accumulated path is `/a`, which does not start with the base — so
containment is not re-validated after every `..` component during the
walk; it is only checked once after the walk. -/
theorem c2_counterexample :
    is_path_safe fsAB ["a", "b"] "../b/c" = true
    ∧ walkComponents ["a", "b"] (pathComponents "..") = some ["a"]
    ∧ (["a", "b"].isPrefixOf ["a"]) = false := by
  refine ⟨by decide, by decide, by decide⟩

/-- C2 (amended): every resource accepted by `is_path_safe` has a
successful walk whose final accumulated path starts with the canonical
base; this containment is established by the single `starts_with` check
after the walk (during the walk a `..` is rejected only when it pops past
the filesystem root, not re-validated against the base). -/
theorem c2_amended_containment (fs : Fs) (p : List String) (r : String)
    (h : is_path_safe fs p r = true) :
    ∃ base acc, fs.canonicalize p = some base
      ∧ walkComponents base (pathComponents (trimSlashes r)) = some acc
      ∧ base.isPrefixOf acc = true := by
  unfold is_path_safe at h
  split at h
  · simp at h
  · rename_i base hc
    split at h
    · simp at h
    · rename_i acc hw
      exact ⟨base, acc, hc, hw, h⟩

/-- Witness for the amended C2 on a plain in-tree resource. -/
theorem c2_amended_containment_witness :
    ∃ base acc, fsExample.canonicalize ["srv"] = some base
      ∧ walkComponents base (pathComponents (trimSlashes "index.html")) = some acc
      ∧ base.isPrefixOf acc = true :=
  c2_amended_containment fsExample ["srv"] "index.html" (by decide)

/-- C1: whenever the base directory canonicalizes and the component walk
of the resource (normal segments push, `.` is dropped, `..` pops) escapes
the canonical base — it ends at a path that no longer starts with the
base, or pops past the filesystem root — `handle_request` answers with
the 403 Forbidden response.  The filesystem functions other than
`canonicalize` are unconstrained, so the answer is 403 regardless of
whether anything exists at the escaped location. -/
theorem c1_traversal_forbidden (fs : Fs) (p : List String)
    (resource url : String) (base : List String)
    (hcanon : fs.canonicalize p = some base)
    (hescape : escapesBase base
      (walkComponents base (pathComponents (trimSlashes resource))) = true) :
    handle_request fs p resource url = build_error_response Status.Forbidden := by
  have hsafe : is_path_safe fs p (trimSlashes resource) = false := by
    unfold is_path_safe
    rw [hcanon, trimSlashes_idem]
    cases hw : walkComponents base (pathComponents (trimSlashes resource)) with
    | none => simp [hw]
    | some acc =>
        rw [hw] at hescape
        simp [escapesBase] at hescape
        simp [hw, hescape]
  simp [handle_request, hsafe]

/-- Witness for C1: the spec's Scenario 2 traversal request against the
concrete filesystem. -/
theorem c1_traversal_forbidden_witness :
    fsExample.canonicalize ["srv", "example.com"] = some ["srv", "example.com"]
    ∧ handle_request fsExample ["srv", "example.com"] "/../../etc/passwd"
        "http://example.com:9000" = build_error_response Status.Forbidden :=
  ⟨by decide, c1_traversal_forbidden fsExample ["srv", "example.com"]
    "/../../etc/passwd" "http://example.com:9000" ["srv", "example.com"]
    (by decide) (by decide)⟩

theorem dispatch_not_get (fs : Fs) (resource_dir : List String) (port : Nat)
    (host_not_defined : Bool) (ts : List String) (headers : List String)
    (h : matchesGetShape ts = false) :
    dispatchTokens fs resource_dir port host_not_defined ts headers
      = build_error_response Status.NotImplemented := by
  unfold dispatchTokens
  split
  · rename_i r
    simp [matchesGetShape] at h
  · rfl

/-- C4: the request line is dispatched to the `GET` branch (host lookup
and path resolution) exactly when trimming it and splitting on single
spaces yields `["GET", resource, "HTTP/1.1"]`; any other shape — and the
session loop actually writes this response for any such non-empty line —
is answered with the 501 Not Implemented response. -/
theorem c4_request_line_dispatch (fs : Fs) (resource_dir : List String)
    (port : Nat) (host_not_defined : Bool) (line : String)
    (headers : List String) :
    (∀ r, splitChar ' ' (trimStr line) = ["GET", r, "HTTP/1.1"] →
      iterationResponse fs resource_dir port host_not_defined line headers
        = getBranch fs resource_dir port host_not_defined r headers)
    ∧ (matchesGetShape (splitChar ' ' (trimStr line)) = false →
      iterationResponse fs resource_dir port host_not_defined line headers
        = build_error_response Status.NotImplemented)
    ∧ (∀ served hs rest, served < MAX_REQUESTS_PER_CONNECTION →
        isEmptyStr (trimStr line) = false →
        matchesGetShape (splitChar ' ' (trimStr line)) = false →
        (sessionLoop fs resource_dir port host_not_defined served
          (ReadEvent.line line hs false :: rest)).responses.head?
          = some (build_error_response Status.NotImplemented)) := by
  refine ⟨?_, ?_, ?_⟩
  · intro r hr
    unfold iterationResponse
    rw [hr]
    simp [dispatchTokens]
  · intro h
    exact dispatch_not_get fs resource_dir port host_not_defined _ headers h
  · intro served hs rest hserved hne hng
    have hlt : ¬ MAX_REQUESTS_PER_CONNECTION ≤ served := Nat.not_le.mpr hserved
    have h501 := dispatch_not_get fs resource_dir port host_not_defined
      (splitChar ' ' (trimStr line)) hs hng
    cases hcw : client_wants_close hs <;>
      simp [sessionLoop, hlt, hne, hcw, iterationResponse, h501]

/-- Witness for C4: a `POST` request line is answered 501. -/
theorem c4_request_line_dispatch_witness :
    iterationResponse fsExample ["srv"] 80 false "POST /x HTTP/1.1" []
      = build_error_response Status.NotImplemented :=
  (c4_request_line_dispatch fsExample ["srv"] 80 false "POST /x HTTP/1.1"
    []).2.1 (by decide)

theorem parse_host_none (h : String)
    (hh : startsWithStr h "Host: " = false) : parse_host_address h = none := by
  unfold parse_host_address
  simp [hh]

set_option maxRecDepth 10000 in
/-- C5, counterexample: the header `host: example.com` has key `host`,
equal to `Host` up to ASCII case, yet `parse_host_address` rejects it
(its `strip_prefix("Host: ")` is case sensitive), so a well-formed GET
request carrying only that header is answered 400 Bad Request instead of
being dispatched with host `example.com`. -/
theorem c5_counterexample :
    startsWithStr (asciiLower "host: example.com") (asciiLower "Host: ") = true
    ∧ List.findSome? parse_host_address ["host: example.com"] = none
    ∧ iterationResponse fsExample ["srv"] 80 false "GET /x HTTP/1.1"
        ["host: example.com"] = build_error_response Status.BadRequest := by
  refine ⟨by decide, by decide, by decide⟩

/-- C5 (amended): the `Host` header is located as the first header
starting with the exact, case-sensitive prefix `"Host: "`; its value is
parsed as `[http://]name[:port][/...]`, extracting `name` (`hostFrom`);
when no header parses, the response is 400 Bad Request and the session
loop continues with the next request rather than closing. -/
theorem c5_amended_host (fs : Fs) (resource_dir : List String) (port : Nat)
    (host_not_defined : Bool) (served : Nat) (line r : String)
    (hs : List String) (rest : List ReadEvent)
    (hserved : served < MAX_REQUESTS_PER_CONNECTION)
    (hline : splitChar ' ' (trimStr line) = ["GET", r, "HTTP/1.1"])
    (hnohost : hs.findSome? parse_host_address = none)
    (hnoclose : client_wants_close hs = false) :
    (∀ h : String, startsWithStr h "Host: " = false →
      parse_host_address h = none)
    ∧ (∀ h : String, parse_host_address h =
        if startsWithStr h "Host: " then some (hostFrom (dropStr 6 h)) else none)
    ∧ (∀ (hs1 hs2 : List String) (h d : String),
        (∀ h2 ∈ hs1, startsWithStr h2 "Host: " = false) →
        parse_host_address h = some d →
        List.findSome? parse_host_address (hs1 ++ h :: hs2) = some d)
    ∧ sessionLoop fs resource_dir port host_not_defined served
        (ReadEvent.line line hs false :: rest)
        = ⟨build_error_response Status.BadRequest ::
            (sessionLoop fs resource_dir port host_not_defined (served + 1)
              rest).responses,
          (sessionLoop fs resource_dir port host_not_defined (served + 1)
            rest).consumed + 1⟩ := by
  refine ⟨parse_host_none, ?_, ?_, ?_⟩
  · intro h
    cases hsw : startsWithStr h "Host: " with
    | true => unfold parse_host_address hostFrom; simp [hsw]
    | false => simp [hsw, parse_host_none h hsw]
  · intro hs1 hs2 h d hnone hp
    induction hs1 with
    | nil => simp [List.findSome?_cons, hp]
    | cons a t ih =>
        have ha : parse_host_address a = none :=
          parse_host_none a (hnone a (by simp))
        simp only [List.cons_append, List.findSome?_cons, ha]
        exact ih (fun h2 hmem => hnone h2 (by simp [hmem]))
  · have hlt : ¬ MAX_REQUESTS_PER_CONNECTION ≤ served := Nat.not_le.mpr hserved
    have hne : isEmptyStr (trimStr line) = false := by
      cases hie : isEmptyStr (trimStr line) with
      | false => rfl
      | true =>
          have hdata : (trimStr line).data = [] := by
            simpa [isEmptyStr, List.isEmpty_iff] using hie
          unfold splitChar at hline
          rw [hdata] at hline
          simp [splitCharList] at hline
    have hresp : iterationResponse fs resource_dir port host_not_defined line hs
        = build_error_response Status.BadRequest := by
      unfold iterationResponse
      rw [hline]
      simp [dispatchTokens, getBranch, hnohost]
    simp [sessionLoop, hlt, hne, hnoclose, hresp]

/-- Witness for the amended C5: a GET request with no Host header gets a
400 response and the loop goes on to the (empty) remainder of input. -/
theorem c5_amended_host_witness :
    sessionLoop fsExample ["srv"] 80 false 0
      [ReadEvent.line "GET /x HTTP/1.1" ["User-Agent: curl"] false]
      = ⟨build_error_response Status.BadRequest ::
          (sessionLoop fsExample ["srv"] 80 false 1 []).responses,
        (sessionLoop fsExample ["srv"] 80 false 1 []).consumed + 1⟩ :=
  (c5_amended_host fsExample ["srv"] 80 false 0 "GET /x HTTP/1.1" "/x"
    ["User-Agent: curl"] [] (by decide) (by decide) (by decide) (by decide)).2.2.2

/-- C7: a safe resource that resolves to a directory is answered with a
301 redirect whose `Location` target is the request's
`http://host:port` base, the original resource with a trailing `/`
ensured, and `index.html` appended; the builder is handed an empty body,
so the body sent is the synthesized `HTML_MOVED` page linking to that
target; the right-hand side does not consult `readFile`/`readToString`,
so nothing is read from disk. -/
theorem c7_directory_redirect (fs : Fs) (resource_dir : List String)
    (port : Nat) (host_not_defined : Bool) (resource : String)
    (headers : List String) (domain_name : String)
    (hhost : headers.findSome? parse_host_address = some domain_name)
    (hsafe : is_path_safe fs
      (if host_not_defined then resource_dir
        else pushPath resource_dir domain_name)
      (trimSlashes resource) = true)
    (hdir : fs.isDir (pushPath
      (if host_not_defined then resource_dir
        else pushPath resource_dir domain_name)
      (trimSlashes resource)) = true) :
    getBranch fs resource_dir port host_not_defined resource headers =
      build_http_response
        (Status.MovedPermamently ("http://" ++ domain_name ++ ":"
          ++ toString port
          ++ (if endsWithStr resource "/" then resource else resource ++ "/")
          ++ "index.html"))
        "text/html; charset=utf-8" []
    ∧ responseFinalBody
        (Status.MovedPermamently ("http://" ++ domain_name ++ ":"
          ++ toString port
          ++ (if endsWithStr resource "/" then resource else resource ++ "/")
          ++ "index.html")) []
        = strBytes (HTML_MOVED "Moved Permamently" "Moved Permamently"
            ("http://" ++ domain_name ++ ":" ++ toString port
              ++ (if endsWithStr resource "/" then resource else resource ++ "/")
              ++ "index.html")) := by
  constructor
  · unfold getBranch
    rw [hhost]
    simp [handle_request, hsafe, hdir]
  · rfl

/-- Witness for C7: the spec's Scenario 3, `GET /` against the directory
`/srv/example.com` with `Host: example.com:9000`. -/
theorem c7_directory_redirect_witness :
    getBranch fsExample ["srv"] 9000 false "/" ["Host: example.com:9000"] =
      build_http_response
        (Status.MovedPermamently ("http://" ++ "example.com" ++ ":"
          ++ toString 9000
          ++ (if endsWithStr "/" "/" then "/" else "/" ++ "/")
          ++ "index.html"))
        "text/html; charset=utf-8" []
    ∧ responseFinalBody
        (Status.MovedPermamently ("http://" ++ "example.com" ++ ":"
          ++ toString 9000
          ++ (if endsWithStr "/" "/" then "/" else "/" ++ "/")
          ++ "index.html")) []
        = strBytes (HTML_MOVED "Moved Permamently" "Moved Permamently"
            ("http://" ++ "example.com" ++ ":" ++ toString 9000
              ++ (if endsWithStr "/" "/" then "/" else "/" ++ "/")
              ++ "index.html")) :=
  c7_directory_redirect fsExample ["srv"] 9000 false "/"
    ["Host: example.com:9000"] "example.com" (by decide) (by decide) (by decide)

/-- C8: for a safe resource resolving to a non-directory: no extension
gives 404 Not Found with no read consulted (the right-hand side is fixed
while `readFile`/`readToString` are unconstrained); an extension —
`html` or any other, recognized by the MIME table or not — whose read
fails gives 500 Internal Server Error, never 404. -/
theorem c8_extension_errors (fs : Fs) (p : List String)
    (resource url : String)
    (hsafe : is_path_safe fs p (trimSlashes resource) = true)
    (hnotdir : fs.isDir (pushPath p (trimSlashes resource)) = false) :
    (pathExtension (pushPath p (trimSlashes resource)) = none →
      handle_request fs p resource url
        = build_error_response Status.PageNotFound)
    ∧ (∀ ext, pathExtension (pushPath p (trimSlashes resource)) = some ext →
        (if ext == "html" then
          fs.readToString (pushPath p (trimSlashes resource)) = none
         else fs.readFile (pushPath p (trimSlashes resource)) = none) →
        handle_request fs p resource url
          = build_error_response Status.InternalServerError) := by
  constructor
  · intro hext
    simp [handle_request, hsafe, hnotdir, hext]
  · intro ext hext hread
    cases he : (ext == "html") with
    | true =>
        rw [if_pos (by simp [he])] at hread
        simp [handle_request, hsafe, hnotdir, hext, he, hread]
    | false =>
        rw [if_neg (by simp [he])] at hread
        simp [handle_request, hsafe, hnotdir, hext, he,
          build_response_other, hread]

/-- Witness for C8: a missing `file.xyz` (unrecognized extension) yields
500, not 404. -/
theorem c8_extension_errors_witness :
    handle_request fsExample ["srv"] "file.xyz" "http://example.com:80"
      = build_error_response Status.InternalServerError :=
  (c8_extension_errors fsExample ["srv"] "file.xyz" "http://example.com:80"
    (by decide) (by decide)).2 "xyz" (by decide) (by decide)

/-- C9: in virtual-hosting mode (`HOST_NOT_DEFINED` unset), the host name
extracted from the Host header is pushed onto the document root before
any safety validation, so the containment base of the safety check is the
canonicalization of `resource_dir/host` — not of `resource_dir` — and a
host of `..` makes that base the canonicalization of
`resource_dir ++ [".."]`, the parent of the document root. -/
theorem c9_vhost_base (fs : Fs) (resource_dir : List String) (port : Nat)
    (resource : String) (headers : List String) (domain_name : String)
    (hhost : headers.findSome? parse_host_address = some domain_name) :
    getBranch fs resource_dir port false resource headers =
      handle_request fs (pushPath resource_dir domain_name) resource
        ("http://" ++ domain_name ++ ":" ++ toString port)
    ∧ (is_path_safe fs (pushPath resource_dir domain_name)
        (trimSlashes resource) = false →
        getBranch fs resource_dir port false resource headers
          = build_error_response Status.Forbidden)
    ∧ pushPath resource_dir ".." = resource_dir ++ [".."] := by
  refine ⟨?_, ?_, rfl⟩
  · unfold getBranch
    rw [hhost]
    rfl
  · intro hunsafe
    unfold getBranch
    rw [hhost]
    simp [handle_request, hunsafe]

/-- Witness for C9: with header `Host: ..` the base handed to the safety
check is `/srv/..`, which `fsExample` cannot canonicalize, so the request
is rejected. -/
theorem c9_vhost_base_witness :
    getBranch fsExample ["srv"] 80 false "/x" ["Host: .."]
      = build_error_response Status.Forbidden :=
  (c9_vhost_base fsExample ["srv"] 80 "/x" ["Host: .."] ".."
    (by decide)).2.1 (by decide)

end HttpServer
